import Mathlib

/-!
Verification development for the Cafecast weather-to-revenue pipeline
(src/vejr_app.py).  The two repository functions with data-transformation
logic, `fetch_weather` and `predict_revenue`, are shallowly embedded below.
Python floats are modelled as exact rationals, with every decimal constant
of the source written as a fraction (e.g. 1091.45 is 109145/100); the
pandas DataFrame is modelled columnarly for the fetcher (where columns may
be absent) and row-wise for the predictor (which acts independently on each
row).
-/

/-- The six labels that the fetcher can assign to `rain_group`
(the `labels` list of `pd.cut` on line 41 of vejr_app.py). -/
inductive RainGroup where
  | g0
  | g01to1
  | g1to4
  | g4to10
  | g10to20
  | g20plus
deriving DecidableEq, Repr

/-- String of each label, as it appears in the source. -/
def RainGroup.label : RainGroup → String
  | .g0 => "0"
  | .g01to1 => "0.1-1"
  | .g1to4 => "1.1-4"
  | .g4to10 => "4.1-10"
  | .g10to20 => "10.1-20"
  | .g20plus => "20+"

/-- `pd.cut(precip_sum, bins=[-0.1, 0.1, 1, 4, 10, 20, 1000], labels=...)`
(vejr_app.py lines 40-42).  `pd.cut` uses right-closed intervals
`(lo, hi]`; a value outside every bin, i.e. `x <= -0.1` or `x > 1000`,
receives no label (NaN), modelled as `none`. -/
def rainGroup (x : ℚ) : Option RainGroup :=
  if x ≤ -1/10 then none
  else if x ≤ 1/10 then some RainGroup.g0
  else if x ≤ 1 then some RainGroup.g01to1
  else if x ≤ 4 then some RainGroup.g1to4
  else if x ≤ 10 then some RainGroup.g4to10
  else if x ≤ 20 then some RainGroup.g10to20
  else if x ≤ 1000 then some RainGroup.g20plus
  else none

/-- A calendar date as pandas sees it after `pd.to_datetime`: the pipeline
only ever reads the projections `dt.year`, `dt.month`, `dt.day` and
`dt.weekday` (Monday = 0), so the date is modelled by those projections. -/
structure PDate where
  year : ℕ
  month : ℕ
  day : ℕ
  weekday0 : ℕ
deriving DecidableEq, Repr

/-- The `daily` object of the provider payload: a dict that may or may not
contain each of the five series (`data['daily']`, vejr_app.py line 24). -/
structure Daily where
  time : Option (List PDate)
  temperature_2m_max : Option (List ℚ)
  precipitation_sum : Option (List ℚ)
  wind_speed_10m_max : Option (List ℚ)
  sunshine_duration : Option (List ℚ)
deriving DecidableEq, Repr

/-- The HTTP response delivered by `requests.get`: a status code and a JSON
body that may or may not contain the `daily` key.  The source never reads
`response.status_code`; it is carried here so that theorems can state that
fact. -/
structure HttpResponse where
  status : ℕ
  daily : Option Daily
deriving DecidableEq, Repr

/-- The request parameters dict built on lines 14-20 of vejr_app.py. -/
structure ReqParams where
  latitude : ℚ
  longitude : ℚ
  daily : String
  forecast_days : ℕ
  timezone : String
deriving DecidableEq, Repr

/-- The `params` dict of `fetch_weather` (vejr_app.py lines 14-20):
`forecast_days` is the literal 10 and is not a parameter of the function. -/
def fetch_params (latitude longitude : ℚ) : ReqParams :=
  { latitude := latitude
    longitude := longitude
    daily := "temperature_2m_max,precipitation_sum,wind_speed_10m_max,sunshine_duration"
    forecast_days := 10
    timezone := "Europe/Copenhagen" }

/-- The DataFrame state returned by `fetch_weather`.  `temp_max` and
`wind_max` are optional because `fetch_weather` never accesses those
columns itself: a payload lacking them still yields a frame (they are
first read inside `predict_revenue`). -/
structure Frame where
  time : List PDate
  temp_max : Option (List ℚ)
  precip_sum : List ℚ
  wind_max : Option (List ℚ)
  sunshine_hours : List ℚ
  month : List ℕ
  weekday : List ℕ
  year : List ℕ
  rain_group : List (Option RainGroup)
deriving DecidableEq, Repr

/-- `fetch_weather` (vejr_app.py lines 12-44), applied to a delivered HTTP
response.  The function performs no status check and defines no error
type of its own: it raises an uncaught `KeyError` exactly when the body
lacks `daily` (line 24), or `daily` lacks `time` (line 25),
`sunshine_duration` (line 34) or `precipitation_sum` (line 42).  Errors
are modelled as `Except.error` carrying the missing key. -/
def fetch_weather (resp : HttpResponse) : Except String Frame :=
  match resp.daily with
  | none => .error "KeyError: daily"
  | some d =>
    match d.time with
    | none => .error "KeyError: time"
    | some times =>
      match d.sunshine_duration with
      | none => .error "KeyError: sunshine_sec"
      | some sun =>
        match d.precipitation_sum with
        | none => .error "KeyError: precip_sum"
        | some prec =>
          .ok
            { time := times
              temp_max := d.temperature_2m_max
              precip_sum := prec
              wind_max := d.wind_speed_10m_max
              sunshine_hours := sun.map (fun s => s / 3600)
              month := times.map PDate.month
              weekday := times.map (fun t => t.weekday0 + 1)
              year := times.map PDate.year
              rain_group := prec.map rainGroup }

/-- True exactly on `Except.error`. -/
def isErr {ε α : Type} : Except ε α → Bool
  | .error _ => true
  | .ok _ => false

/-- One row of the DataFrame handed to `predict_revenue`, with every column
the predictor reads present (the valid-input case). -/
structure Obs where
  time : PDate
  temp_max : ℚ
  precip_sum : ℚ
  wind_max : ℚ
  sunshine_hours : ℚ
  month : ℕ
  weekday : ℕ
  year : ℕ
  rain_group : Option RainGroup
deriving DecidableEq, Repr

/-- A row of the mutable frame seen by `predict_revenue`: the weather
observation plus the two columns the predictor assigns in place
(absent, i.e. `none`, before the call). -/
structure ObsState where
  obs : Obs
  predicted_revenue : Option ℚ
  predicted_medarbejder_timer : Option ℚ
deriving DecidableEq, Repr

/-- `intercept = -6091.86` (vejr_app.py line 51). -/
def intercept : ℚ := -609186/100

/-- `month_coef` (vejr_app.py lines 59-62): no entry for month 1.
Values are the decimals of the source as exact fractions. -/
def month_coef : List (ℕ × ℚ) :=
  [(2, 0), (3, 192183/100), (4, 321833/100), (5, 439599/100), (6, 32722/10),
   (7, -63525/100), (8, 171398/100), (9, -5242/10), (10, -21802/100),
   (11, 533289/100), (12, 79116/10)]

/-- `weekday_coef` (vejr_app.py lines 66-68): entries for all of 1-7. -/
def weekday_coef : List (ℕ × ℚ) :=
  [(1, 0), (2, -67505/100), (3, 50761/100), (4, 344195/100), (5, 348852/100),
   (6, 373635/100), (7, 209948/100)]

/-- `rain_coef` (vejr_app.py lines 72-75), keyed by the six labels. -/
def rain_coef : RainGroup → ℚ
  | .g0 => 0
  | .g01to1 => -254221/100
  | .g1to4 => -458456/100
  | .g4to10 => -516957/100
  | .g10to20 => -718238/100
  | .g20plus => -734026/100

/-- `year_coef` (vejr_app.py line 79). -/
def year_coef : List (ℕ × ℚ) :=
  [(2023, 672787/100), (2024, 10734), (2025, 1661022/100)]

/-- `df['month'].map(month_coef).fillna(0)` for one row: a lookup miss
becomes NaN and `fillna` turns it into 0 (vejr_app.py line 63). -/
def monthOffset (m : ℕ) : ℚ := ((month_coef.lookup m).getD 0)

/-- `df['weekday'].map(weekday_coef).fillna(0)` for one row
(vejr_app.py line 69). -/
def weekdayOffset (w : ℕ) : ℚ := ((weekday_coef.lookup w).getD 0)

/-- `df['rain_group'].astype(str).map(rain_coef).fillna(0)` for one row
(vejr_app.py line 76): an unassigned rain group stringifies to "nan",
misses the dict, and `fillna` turns it into 0; every actual label has an
entry. -/
def rainOffset (g : Option RainGroup) : ℚ :=
  match g with
  | none => 0
  | some gr => rain_coef gr

/-- `df['year'].map(year_coef).fillna(0)` for one row
(vejr_app.py line 80). -/
def yearOffset (y : ℕ) : ℚ := ((year_coef.lookup y).getD 0)

/-- The revenue series of `predict_revenue` evaluated on one row
(vejr_app.py lines 53-80): the coefficients are 1091.45, -161.57 and
1050.98 as exact fractions. -/
def revenueOf (r : Obs) : ℚ :=
  intercept
    + 109145/100 * r.temp_max
    - 16157/100 * r.wind_max
    + 105098/100 * r.sunshine_hours
    + monthOffset r.month
    + weekdayOffset r.weekday
    + rainOffset r.rain_group
    + yearOffset r.year

/-- `(df['predicted_revenue'] * 0.2) / 155` for one row
(vejr_app.py line 85); 0.2 is the exact fraction 2/10. -/
def staff_hours (r : Obs) : ℚ := revenueOf r * (2/10) / 155

/-- The in-place column assignments of `predict_revenue`
(vejr_app.py lines 82 and 85) acting on one row of the input frame. -/
def predictRow (s : ObsState) : ObsState :=
  { s with
    predicted_revenue := some (revenueOf s.obs)
    predicted_medarbejder_timer := some (staff_hours s.obs) }

/-- The columns selected by the return statement of `predict_revenue`
(vejr_app.py line 87). -/
structure OutRow where
  time : PDate
  temp_max : ℚ
  wind_max : ℚ
  precip_sum : ℚ
  sunshine_hours : ℚ
  predicted_revenue : ℚ
  predicted_medarbejder_timer : ℚ
deriving DecidableEq, Repr

/-- The column selection `df[['time','temp_max','wind_max','precip_sum',
'sunshine_hours','predicted_revenue','predicted_medarbejder_timer']]`
applied to one (already predicted) row. -/
def selectOut (s : ObsState) : OutRow :=
  { time := s.obs.time
    temp_max := s.obs.temp_max
    wind_max := s.obs.wind_max
    precip_sum := s.obs.precip_sum
    sunshine_hours := s.obs.sunshine_hours
    predicted_revenue := s.predicted_revenue.getD 0
    predicted_medarbejder_timer := s.predicted_medarbejder_timer.getD 0 }

/-- `predict_revenue` (vejr_app.py lines 49-87).  The first component is
the state of the caller frame after the call (the function assigns two
new columns to `df` in place); the second is the returned selection. -/
def predict_revenue (df : List ObsState) : List ObsState × List OutRow :=
  let df2 := df.map predictRow
  (df2, df2.map selectOut)

/-! ### Spec-side model of the regression tables (for the refinement claim C1)

The following definitions follow the WORDS of the spec (section 4.2,
coefficient tables and the default-to-zero policy), to be compared with the
code-side `monthOffset`, `weekdayOffset`, `rainOffset`, `yearOffset`. -/

/-- Spec table: months 2-12 have explicit offsets, any other month
(specifically January) contributes 0. -/
def specMonthOffset (m : ℕ) : ℚ :=
  if m = 2 then 0
  else if m = 3 then 192183/100
  else if m = 4 then 321833/100
  else if m = 5 then 439599/100
  else if m = 6 then 32722/10
  else if m = 7 then -63525/100
  else if m = 8 then 171398/100
  else if m = 9 then -5242/10
  else if m = 10 then -21802/100
  else if m = 11 then 533289/100
  else if m = 12 then 79116/10
  else 0

/-- Spec table: weekdays 1-7 all have explicit offsets (Monday = 1 is the
0 baseline). -/
def specWeekdayOffset (w : ℕ) : ℚ :=
  if w = 1 then 0
  else if w = 2 then -67505/100
  else if w = 3 then 50761/100
  else if w = 4 then 344195/100
  else if w = 5 then 348852/100
  else if w = 6 then 373635/100
  else if w = 7 then 209948/100
  else 0

/-- Spec table: each of the six rain-group labels has an explicit offset;
an unassigned group contributes 0. -/
def specRainOffset : Option RainGroup → ℚ
  | none => 0
  | some .g0 => 0
  | some .g01to1 => -254221/100
  | some .g1to4 => -458456/100
  | some .g4to10 => -516957/100
  | some .g10to20 => -718238/100
  | some .g20plus => -734026/100

/-- Spec table: years 2023-2025 have explicit offsets, any other year
contributes 0. -/
def specYearOffset (y : ℕ) : ℚ :=
  if y = 2023 then 672787/100
  else if y = 2024 then 10734
  else if y = 2025 then 1661022/100
  else 0

/-- The revenue model exactly as the spec words it: continuous base
`intercept + a * temp_max + b * wind_max + c * sunshine_hours` with
`intercept = -6091.86, a = 1091.45, b = -161.57, c = 1050.98`, plus the
four categorical offsets. -/
def specRevenue (r : Obs) : ℚ :=
  -609186/100 + 109145/100 * r.temp_max + (-16157/100) * r.wind_max
    + 105098/100 * r.sunshine_hours
    + specMonthOffset r.month + specWeekdayOffset r.weekday
    + specRainOffset r.rain_group + specYearOffset r.year

/-- The end-to-end example row of the spec (section 8): temp 20, wind 5,
sunshine 8, month 7, weekday 6, year 2024, dry day. -/
def exampleObs : Obs :=
  { time := { year := 2024, month := 7, day := 13, weekday0 := 5 }
    temp_max := 20
    precip_sum := 0
    wind_max := 5
    sunshine_hours := 8
    month := 7
    weekday := 6
    year := 2024
    rain_group := some RainGroup.g0 }

theorem monthOffset_eq (m : ℕ) : monthOffset m = specMonthOffset m := by
  match m with
  | 0 => rfl
  | 1 => rfl
  | 2 => rfl
  | 3 => rfl
  | 4 => rfl
  | 5 => rfl
  | 6 => rfl
  | 7 => rfl
  | 8 => rfl
  | 9 => rfl
  | 10 => rfl
  | 11 => rfl
  | 12 => rfl
  | n + 13 => rfl

theorem weekdayOffset_eq (w : ℕ) : weekdayOffset w = specWeekdayOffset w := by
  match w with
  | 0 => rfl
  | 1 => rfl
  | 2 => rfl
  | 3 => rfl
  | 4 => rfl
  | 5 => rfl
  | 6 => rfl
  | 7 => rfl
  | n + 8 => rfl

theorem rainOffset_eq (g : Option RainGroup) : rainOffset g = specRainOffset g := by
  rcases g with _ | gr
  · rfl
  · cases gr <;> rfl

theorem yearOffset_eq (y : ℕ) : yearOffset y = specYearOffset y := by
  by_cases h1 : y = 2023
  · subst h1; rfl
  by_cases h2 : y = 2024
  · subst h2; rfl
  by_cases h3 : y = 2025
  · subst h3; rfl
  have e1 : (y == 2023) = false := beq_eq_false_iff_ne.mpr h1
  have e2 : (y == 2024) = false := beq_eq_false_iff_ne.mpr h2
  have e3 : (y == 2025) = false := beq_eq_false_iff_ne.mpr h3
  unfold yearOffset year_coef specYearOffset
  simp [List.lookup, e1, e2, e3, h1, h2, h3]

/-- Claim C1: for every DailyObservation row, the predicted revenue is the
continuous base -6091.86 + 1091.45*temp_max - 161.57*wind_max +
1050.98*sunshine_hours plus the month, weekday, rain-group and year
offsets of the spec tables; month 1 and years outside 2023-2025
contribute 0; and on the spec example row (temp 20, wind 5, sunshine 8,
month 7, weekday 6, year 2024, dry) the predicted revenue is exactly
37172.23 = 3717223/100. -/
theorem claim1_predicted_revenue_formula :
    (∀ r : Obs, revenueOf r = specRevenue r)
      ∧ monthOffset 1 = 0
      ∧ (∀ y : ℕ, y ≠ 2023 → y ≠ 2024 → y ≠ 2025 → yearOffset y = 0)
      ∧ revenueOf exampleObs = 3717223/100 := by
  refine ⟨?_, rfl, ?_, ?_⟩
  · intro r
    unfold revenueOf specRevenue intercept
    rw [monthOffset_eq, weekdayOffset_eq, rainOffset_eq, yearOffset_eq]
    ring
  · intro y h1 h2 h3
    have e1 : (y == 2023) = false := beq_eq_false_iff_ne.mpr h1
    have e2 : (y == 2024) = false := beq_eq_false_iff_ne.mpr h2
    have e3 : (y == 2025) = false := beq_eq_false_iff_ne.mpr h3
    unfold yearOffset year_coef
    simp [List.lookup, e1, e2, e3]
  · have hm : monthOffset 7 = -63525/100 := rfl
    have hw : weekdayOffset 6 = 373635/100 := rfl
    have hy : yearOffset 2024 = 10734 := rfl
    have hr : rainOffset (some RainGroup.g0) = 0 := rfl
    unfold revenueOf exampleObs intercept
    norm_num [hm, hw, hy, hr]

/-- Witness for C1: year 2020 is outside the table and contributes 0. -/
theorem claim1_predicted_revenue_formula_witness :
    ((2020 : ℕ) ≠ 2023 ∧ (2020 : ℕ) ≠ 2024 ∧ (2020 : ℕ) ≠ 2025)
      ∧ yearOffset 2020 = 0 :=
  ⟨⟨by decide, by decide, by decide⟩,
    claim1_predicted_revenue_formula.2.2.1 2020 (by decide) (by decide) (by decide)⟩

/-- Claim C2: rain bucketing is right-closed at each breakpoint:
1.0 mm falls in "0.1-1", 0.0 in "0", 4.0 in "1.1-4", 1000.0 in "20+",
and the remaining breakpoints 0.1, 10, 20 also fall in their lower
buckets. -/
theorem claim2_rain_bucket_boundaries :
    rainGroup 1 = some RainGroup.g01to1
      ∧ rainGroup 0 = some RainGroup.g0
      ∧ rainGroup 4 = some RainGroup.g1to4
      ∧ rainGroup 1000 = some RainGroup.g20plus
      ∧ rainGroup (1/10) = some RainGroup.g0
      ∧ rainGroup 10 = some RainGroup.g4to10
      ∧ rainGroup 20 = some RainGroup.g10to20 := by
  norm_num [rainGroup]

/-- Counterexample to C3 as stated: `pd.cut` leaves values outside the
outermost bin edges unbucketed, so 2000 mm (above the 1000 cap) and
readings at or below -0.1 mm receive no rain group at all. -/
theorem claim3_counterexample :
    rainGroup 2000 = none ∧ rainGroup (-1/10) = none ∧ rainGroup (-1) = none := by
  norm_num [rainGroup]

/-- Claim C3 as amended: the bucketing is exhaustive only on the interval
(-0.1, 1000]; every precip_sum value in that range gets one of the six
labels. -/
theorem claim3_bucketing_exhaustive_in_range (x : ℚ)
    (hlo : -1/10 < x) (hhi : x ≤ 1000) :
    (rainGroup x).isSome = true := by
  unfold rainGroup
  split_ifs with h1 h2 h3 h4 h5 h6 <;>
    first
    | rfl
    | exact absurd h1 (not_le.mpr hlo)

/-- Witness for the amended C3 at precip_sum = 5. -/
theorem claim3_bucketing_exhaustive_in_range_witness :
    (-1/10 < (5 : ℚ) ∧ (5 : ℚ) ≤ 1000) ∧ (rainGroup 5).isSome = true :=
  ⟨⟨by norm_num, by norm_num⟩,
    claim3_bucketing_exhaustive_in_range 5 (by norm_num) (by norm_num)⟩

/-! ### Fetcher error behaviour and horizon (claims C4, C6) -/

/-- A concrete forecast day. -/
def d0a : PDate := { year := 2025, month := 10, day := 12, weekday0 := 6 }

/-- A second concrete forecast day. -/
def d0b : PDate := { year := 2025, month := 10, day := 13, weekday0 := 0 }

/-- A third concrete forecast day. -/
def d0c : PDate := { year := 2025, month := 10, day := 14, weekday0 := 1 }

/-- A payload that is missing the `temperature_2m_max` series but has the
other three series and `time`. -/
def d500 : Daily :=
  { time := some [d0a]
    temperature_2m_max := none
    precipitation_sum := some [0]
    wind_speed_10m_max := some [5]
    sunshine_duration := some [3600] }

/-- A non-success response (HTTP 500) whose body nevertheless carries a
`daily` object, with the temperature series missing. -/
def resp500 : HttpResponse := { status := 500, daily := some d500 }

/-- Counterexample to C4 as stated: the code never raises a `FetchError`
(no such type exists) and never inspects the HTTP status; on a status-500
response whose payload is also missing the required temperature series,
`fetch_weather` succeeds instead of failing. -/
theorem claim4_counterexample :
    resp500.status = 500
      ∧ d500.temperature_2m_max = none
      ∧ isErr (fetch_weather resp500) = false :=
  ⟨rfl, rfl, rfl⟩

/-- Claim C4 as amended: `fetch_weather` fails (by an uncaught `KeyError`,
there being no `FetchError` type) exactly when the payload lacks `daily`,
or `daily` lacks `time`, `sunshine_duration` or `precipitation_sum`; the
HTTP status is never consulted, and missing `temperature_2m_max` or
`wind_speed_10m_max` series do not make the fetcher fail (they surface
later, in the predictor). -/
theorem claim4_fetch_error_exactly_on_missing_keys (resp : HttpResponse) :
    isErr (fetch_weather resp) = true
      ↔ resp.daily = none
        ∨ ∃ d, resp.daily = some d
            ∧ (d.time = none
                ∨ d.sunshine_duration = none
                ∨ d.precipitation_sum = none) := by
  rcases resp with ⟨st, _ | d⟩
  · simp [fetch_weather, isErr]
  · rcases d with ⟨t, tm, pr, wi, su⟩
    rcases t with _ | t <;> rcases su with _ | su <;> rcases pr with _ | pr <;>
      simp [fetch_weather, isErr]

/-- A well-formed three-day payload. -/
def d3 : Daily :=
  { time := some [d0a, d0b, d0c]
    temperature_2m_max := some [20, 21, 22]
    precipitation_sum := some [0, 2, 5]
    wind_speed_10m_max := some [5, 5, 5]
    sunshine_duration := some [3600, 7200, 0] }

/-- A success response carrying the three-day payload. -/
def resp3 : HttpResponse := { status := 200, daily := some d3 }

/-- Number of rows of a successfully fetched frame. -/
def okTimeLen : Except String Frame → Option ℕ
  | .ok f => some f.time.length
  | .error _ => none

/-- Counterexample to C6 as stated: `fetch_weather` takes no horizon
parameter (only latitude and longitude) and does not validate the row
count: a provider payload with 3 days yields a successful 3-row result,
not the requested/default 10. -/
theorem claim6_counterexample :
    okTimeLen (fetch_weather resp3) = some 3 ∧ (3 : ℕ) ≠ 10 :=
  ⟨rfl, by decide⟩

/-- Claim C6 as amended: the horizon is not an input; the request always
carries `forecast_days = 10` regardless of the only inputs (latitude and
longitude), and on success the returned frame has exactly one row per
entry of the payload `daily.time` list, in payload order (no sorting and
no length check against 10). -/
theorem claim6_fixed_horizon_and_row_count :
    (∀ la lo : ℚ, (fetch_params la lo).forecast_days = 10)
      ∧ ∀ resp f, fetch_weather resp = .ok f
          → resp.daily.bind Daily.time = some f.time := by
  constructor
  · intro la lo
    rfl
  · intro resp f h
    rcases resp with ⟨st, _ | d⟩
    · simp [fetch_weather] at h
    · rcases d with ⟨t, tm, pr, wi, su⟩
      rcases t with _ | t <;> rcases su with _ | su <;> rcases pr with _ | pr <;>
        simp_all [fetch_weather]
      rw [← h]

/-- The frame that `fetch_weather` produces from `resp3`. -/
def frame3 : Frame :=
  { time := [d0a, d0b, d0c]
    temp_max := some [20, 21, 22]
    precip_sum := [0, 2, 5]
    wind_max := some [5, 5, 5]
    sunshine_hours := [3600 / 3600, 7200 / 3600, 0 / 3600]
    month := [d0a.month, d0b.month, d0c.month]
    weekday := [d0a.weekday0 + 1, d0b.weekday0 + 1, d0c.weekday0 + 1]
    year := [d0a.year, d0b.year, d0c.year]
    rain_group := [rainGroup 0, rainGroup 2, rainGroup 5] }

/-- Witness for the amended C6 on the concrete three-day response. -/
theorem claim6_fixed_horizon_and_row_count_witness :
    (fetch_params 55 12).forecast_days = 10
      ∧ resp3.daily.bind Daily.time = some frame3.time :=
  ⟨claim6_fixed_horizon_and_row_count.1 55 12,
    claim6_fixed_horizon_and_row_count.2 resp3 frame3 rfl⟩

/-! ### Predictor claims (C5, C7, C8, C9, C10) -/

/-- A one-row frame as it stands right after fetching (prediction columns
not yet assigned). -/
def df0 : List ObsState :=
  [{ obs := exampleObs, predicted_revenue := none, predicted_medarbejder_timer := none }]

/-- Counterexample to C5 as stated: `predict_revenue` assigns two new
columns to its argument DataFrame in place, so after the call the frame
passed in differs from its state at creation. -/
theorem claim5_counterexample : (predict_revenue df0).1 ≠ df0 := by
  intro h
  simp [predict_revenue, df0, predictRow] at h

/-- Claim C5 as amended: the predictor does mutate its input frame, but
only by setting the `predicted_revenue` and `predicted_medarbejder_timer`
columns; every observation field of every row is left unchanged, and no
other state is shared with the fetcher. -/
theorem claim5_mutation_only_adds_prediction_columns (df : List ObsState) :
    ((predict_revenue df).1).map ObsState.obs = df.map ObsState.obs
      ∧ ((predict_revenue df).1).map ObsState.predicted_revenue
          = df.map (fun s => some (revenueOf s.obs))
      ∧ ((predict_revenue df).1).map ObsState.predicted_medarbejder_timer
          = df.map (fun s => some (staff_hours s.obs)) := by
  refine ⟨?_, ?_, ?_⟩ <;>
    simp [predict_revenue, predictRow, List.map_map, Function.comp]

/-- Claim C7: every output row satisfies
`predicted_medarbejder_timer = predicted_revenue * 0.2 / 155` exactly,
with no clamping of negative values (the identity holds for every row,
whatever the sign of the revenue). -/
theorem claim7_staff_hours_ratio (df : List ObsState) (r : OutRow)
    (hr : r ∈ (predict_revenue df).2) :
    r.predicted_medarbejder_timer = r.predicted_revenue * (2/10) / 155 := by
  simp [predict_revenue, List.map_map] at hr
  obtain ⟨s, hs, rfl⟩ := hr
  simp [Function.comp, selectOut, predictRow, staff_hours]

/-- The single output row produced from `df0`. -/
def r0 : OutRow :=
  selectOut (predictRow
    { obs := exampleObs, predicted_revenue := none, predicted_medarbejder_timer := none })

/-- Witness for C7 on the one-row frame `df0`. -/
theorem claim7_staff_hours_ratio_witness :
    r0 ∈ (predict_revenue df0).2
      ∧ r0.predicted_medarbejder_timer = r0.predicted_revenue * (2/10) / 155 :=
  have hmem : r0 ∈ (predict_revenue df0).2 := List.mem_singleton.mpr rfl
  ⟨hmem, claim7_staff_hours_ratio df0 r0 hmem⟩

/-- Claim C8: on any input frame (all required fields present, which the
row type `ObsState` guarantees), `predict_revenue` is a total function
returning exactly one output row per input row, in the same order (the
date column of the output is the date column of the input), each row
carrying the two prediction fields derived from its observation. -/
theorem claim8_order_count_preservation (df : List ObsState) :
    ((predict_revenue df).2).length = df.length
      ∧ ((predict_revenue df).2).map OutRow.time = df.map (fun s => s.obs.time)
      ∧ ((predict_revenue df).2).map OutRow.predicted_revenue
          = df.map (fun s => revenueOf s.obs)
      ∧ ((predict_revenue df).2).map OutRow.predicted_medarbejder_timer
          = df.map (fun s => staff_hours s.obs) := by
  refine ⟨?_, ?_, ?_, ?_⟩ <;>
    simp [predict_revenue, List.map_map, Function.comp, selectOut, predictRow]

/-- Claim C9: all four categorical lookups default to 0 on a missing key
(the predictor never raises on a lookup miss: each offset is a total
function), and a row with an unassigned (NaN) rain group gets rain offset
0, giving the same revenue as the dry "0" bucket. -/
theorem claim9_lookup_defaults :
    (∀ m, month_coef.lookup m = none → monthOffset m = 0)
      ∧ (∀ w, weekday_coef.lookup w = none → weekdayOffset w = 0)
      ∧ (∀ y, year_coef.lookup y = none → yearOffset y = 0)
      ∧ rainOffset none = 0
      ∧ rainOffset (some RainGroup.g0) = 0
      ∧ (∀ r : Obs, r.rain_group = none
          → revenueOf r = revenueOf { r with rain_group := some RainGroup.g0 }) := by
  refine ⟨?_, ?_, ?_, rfl, rfl, ?_⟩
  · intro m h; simp [monthOffset, h]
  · intro w h; simp [weekdayOffset, h]
  · intro y h; simp [yearOffset, h]
  · intro r h
    simp [revenueOf, h, rainOffset, rain_coef]

/-- The example row with its rain group unassigned (NaN). -/
def obsNaN : Obs := { exampleObs with rain_group := none }

/-- Witness for C9: month 1, weekday 0 and year 1999 are all lookup
misses and contribute 0; the NaN rain group gives the same revenue as the
dry bucket. -/
theorem claim9_lookup_defaults_witness :
    (month_coef.lookup 1 = none ∧ monthOffset 1 = 0)
      ∧ (weekday_coef.lookup 0 = none ∧ weekdayOffset 0 = 0)
      ∧ (year_coef.lookup 1999 = none ∧ yearOffset 1999 = 0)
      ∧ revenueOf obsNaN = revenueOf { obsNaN with rain_group := some RainGroup.g0 } :=
  ⟨⟨rfl, claim9_lookup_defaults.1 1 rfl⟩,
    ⟨rfl, claim9_lookup_defaults.2.1 0 rfl⟩,
    ⟨rfl, claim9_lookup_defaults.2.2.1 1999 rfl⟩,
    claim9_lookup_defaults.2.2.2.2.2 obsNaN rfl⟩

/-- Claim C10: with all other fields fixed, revenue is strictly increasing
in temp_max and sunshine_hours and strictly decreasing in wind_max; staff
hours are the fixed positive multiple 0.2/155 of revenue and therefore
preserve the strict ordering of revenues across any two rows. -/
theorem claim10_monotonicity :
    (∀ (r : Obs) (a b : ℚ), a < b
        → revenueOf { r with temp_max := a } < revenueOf { r with temp_max := b })
      ∧ (∀ (r : Obs) (a b : ℚ), a < b
          → revenueOf { r with sunshine_hours := a }
              < revenueOf { r with sunshine_hours := b })
      ∧ (∀ (r : Obs) (a b : ℚ), a < b
          → revenueOf { r with wind_max := b } < revenueOf { r with wind_max := a })
      ∧ (∀ r1 r2 : Obs, revenueOf r1 < revenueOf r2
          → staff_hours r1 < staff_hours r2) := by
  refine ⟨?_, ?_, ?_, ?_⟩
  · intro r a b h
    simp only [revenueOf]
    linarith
  · intro r a b h
    simp only [revenueOf]
    linarith
  · intro r a b h
    simp only [revenueOf]
    linarith
  · intro r1 r2 h
    simp only [staff_hours]
    linarith

/-- Witness for C10 at the example row, moving each variable from 0 to 1. -/
theorem claim10_monotonicity_witness :
    ((0 : ℚ) < 1)
      ∧ revenueOf { exampleObs with temp_max := 0 }
          < revenueOf { exampleObs with temp_max := 1 }
      ∧ revenueOf { exampleObs with sunshine_hours := 0 }
          < revenueOf { exampleObs with sunshine_hours := 1 }
      ∧ revenueOf { exampleObs with wind_max := 1 }
          < revenueOf { exampleObs with wind_max := 0 }
      ∧ staff_hours { exampleObs with temp_max := 0 }
          < staff_hours { exampleObs with temp_max := 1 } :=
  have h01 : (0 : ℚ) < 1 := by norm_num
  have ht := claim10_monotonicity.1 exampleObs 0 1 h01
  ⟨h01, ht,
    claim10_monotonicity.2.1 exampleObs 0 1 h01,
    claim10_monotonicity.2.2.1 exampleObs 0 1 h01,
    claim10_monotonicity.2.2.2 _ _ ht⟩
